import Mathlib

/-!
Verification development for the gym-bro repository.

The subject is the WHOOP OAuth token lifecycle and the resilient fetch and
daily-sync logic in src/01-app/src/app.py (functions whoop_callback,
create_oauth_state_for_user, fetch_whoop_data, _call_whoop_api,
refresh_whoop_token, update_daily_health_data) and the variant
fetch_whoop_sleep_data in src/01-app/src/main.py.

The Firestore document store is modelled as explicit keyed maps, the
upstream HTTP server as an environment carried in the state: a script of
GET responses consumed in call order, a function giving the outcome of the
token-refresh POST for each refresh token, and a function giving the
outcome of the authorization-code exchange POST for each code.  Counters
record the number of upstream GET calls, refresh attempts and credential
writes, and a log records the bearer token used by each GET.
-/

namespace GymBro

/-- A user document, restricted to the two credential fields the WHOOP
logic reads and writes (whoop_access_token, whoop_refresh_token); a field
may be absent or null, which Python reads back as None via dict.get. -/
structure UserDoc where
  whoopAccessToken : Option String
  whoopRefreshToken : Option String
deriving DecidableEq

/-- The parsed JSON body returned by the token endpoint for a refresh
(refresh_whoop_token returns it unchecked, so either field may be
missing). -/
structure TokenData where
  access_token : Option String
  refresh_token : Option String
deriving DecidableEq

/-- The daily health_metrics document written by update_daily_health_data:
exactly the four fields of data_to_store.  The timestamp models the value
of datetime.datetime.utcnow() at the write. -/
structure MetricsDoc where
  sleep_records : List String
  recovery_records : List String
  workout_records : List String
  timestamp : Nat
deriving DecidableEq

/-- Raw outcome of one requests.get against a WHOOP resource endpoint:
either an exception raised by the request (transport error, JSON decode
error) with its message, or an HTTP response with status code, reason
phrase and parsed records. -/
inductive HttpResp where
  | exc (msg : String)
  | resp (code : Nat) (reason : String) (records : List String)
deriving DecidableEq

/-- Outcome of one requests.post against the token endpoint for an
authorization-code exchange inside whoop_callback: either any raised
exception (transport error, non-2xx raise_for_status, malformed body), or
a parsed JSON body with its optional access_token and refresh_token. -/
inductive ExchangeResp where
  | failed
  | ok (access_token : Option String) (refresh_token : Option String)
deriving DecidableEq

/-- The result dict of _call_whoop_api: a dict with success = True and the
parsed records, or success = False with an error message. -/
inductive ApiResult where
  | ok (records : List String)
  | err (msg : String)
deriving DecidableEq

/-- The dict returned by fetch_whoop_data (and fetch_whoop_sleep_data):
emptyDict models the bare Python dict returned when no user document or no
access token is on file; failure and success model the dicts with
success = False resp. success = True. -/
inductive FetchResult where
  | emptyDict
  | failure (error : String)
  | success (records : List String)
deriving DecidableEq

/-- The JSON value returned to the browser by whoop_callback: a dict with
an error field or a dict with a message field. -/
inductive CallbackResult where
  | error (msg : String)
  | ok (msg : String)
deriving DecidableEq

/-- The per-category sync outcome described by the specification for the
Daily Metrics Synchronizer (a PartialSync flag listing failed categories,
or an all-clear).  The source function update_daily_health_data is typed
-> None and returns None, which is rendered as (none : Option SyncOutcome)
so that claims about the returned outcome can be stated. -/
inductive SyncOutcome where
  | flagged (failedCategories : List String)
  | allOk
deriving DecidableEq

/-- Python truthiness of an optional string: None and the empty string are
falsy. -/
def truthy : Option String → Bool
  | none => false
  | some s => !s.isEmpty

/-- Whether the needle occurs as a contiguous sublist starting at some
position of the haystack. -/
def infixOfAux (needle : List Char) : List Char → Bool
  | [] => needle.isEmpty
  | c :: rest => needle.isPrefixOf (c :: rest) || infixOfAux needle rest

/-- Python substring membership: needle in hay. -/
def containsSubstr (needle hay : String) : Bool :=
  infixOfAux needle.toList hay.toList

/-- The error message _call_whoop_api produces for a 401 or 403 status. -/
def authFailMsg : String := "Unauthorized or Token Expired"

/-- The message str(e) of the requests.HTTPError raised by
raise_for_status for a status in 400..599. -/
def httpErrorText (code : Nat) (reason : String) : String :=
  if code < 500 then toString code ++ " Client Error: " ++ reason
  else toString code ++ " Server Error: " ++ reason

/-- How _call_whoop_api classifies one raw HTTP outcome: a raised
exception is caught and reported as an error dict; a 401 or 403 yields the
fixed authFailMsg error; any other 4xx or 5xx makes raise_for_status
raise, caught as an error dict; otherwise the parsed records are returned
with success = True. -/
def apiResultOf : HttpResp → ApiResult
  | .exc m => .err m
  | .resp code reason records =>
    if code == 401 || code == 403 then .err authFailMsg
    else if 400 ≤ code ∧ code < 600 then .err (httpErrorText code reason)
    else .ok records

/-- The endpoints dict in fetch_whoop_data. -/
def endpoints : String → Option String
  | "sleep" => some "activity/sleep"
  | "recovery" => some "recovery"
  | "workout" => some "activity/workout"
  | _ => none

/-- The whole world state: the three Firestore keyed collections, the
upstream environment (pending GET response script, refresh and exchange
endpoint behaviour) and observation counters. -/
structure St where
  users : String → Option UserDoc
  oauthStates : String → Option (Option String)
  metrics : String → String → Option MetricsDoc
  pending : List HttpResp
  refreshEnv : Option String → Option TokenData
  exchangeEnv : String → ExchangeResp
  apiCalls : Nat
  refreshCalls : Nat
  credWrites : Nat
  tokensUsed : List (Option String)

/-- Write a user document under one key. -/
def setUser (f : String → Option UserDoc) (uid : String) (d : UserDoc) :
    String → Option UserDoc :=
  fun u => if u = uid then some d else f u

/-- Write a metrics document under one (user, date) key. -/
def setMetrics (f : String → String → Option MetricsDoc) (uid date : String)
    (doc : MetricsDoc) : String → String → Option MetricsDoc :=
  fun u d => if u = uid ∧ d = date then some doc else f u d

/-- The Firestore set with merge=True on users/uid writing the fields
whoop_access_token and whoop_refresh_token (the only fields of the model
document, so the merged document is the new pair), counted as one
credential write. -/
def writeUserTokens (st : St) (uid : String) (a r : Option String) : St :=
  { st with users := setUser st.users uid ⟨a, r⟩,
            credWrites := st.credWrites + 1 }

/-- One requests.get against a resource endpoint: consumes the next
scripted response, counts one upstream call and logs the bearer token
used.  An exhausted script behaves as a transport error.  The endpoint and
start_date arguments mirror the source signature; in the model the
response is supplied by the script. -/
def callWhoopApi (st : St) (accessToken : Option String) (endpoint : String)
    (startDate : Option String) : ApiResult × St :=
  match st.pending with
  | [] => (.err "connection error",
      { st with apiCalls := st.apiCalls + 1,
                tokensUsed := st.tokensUsed ++ [accessToken] })
  | r :: rest => (apiResultOf r,
      { st with pending := rest,
                apiCalls := st.apiCalls + 1,
                tokensUsed := st.tokensUsed ++ [accessToken] })

/-- fetch_whoop_data from src/01-app/src/app.py: look up the user
document, return the empty dict when it is absent or has no (truthy)
access token; otherwise resolve the endpoint, issue the GET, and when the
result is a failure whose error message contains authFailMsg, call the
refresh endpoint with the stored refresh token; on refresh success persist
both returned tokens and retry the GET once with the new access token; on
refresh failure return the original failure. -/
def fetch_whoop_data (st : St) (uid dataType : String)
    (startDate : Option String) : FetchResult × St :=
  match st.users uid with
  | none => (.emptyDict, st)
  | some udoc =>
    if truthy udoc.whoopAccessToken then
      match endpoints dataType with
      | none => (.failure ("Invalid data type: " ++ dataType), st)
      | some endpoint =>
        match callWhoopApi st udoc.whoopAccessToken endpoint startDate with
        | (.ok recs, st1) => (.success recs, st1)
        | (.err msg, st1) =>
          if containsSubstr authFailMsg msg then
            let st2 := { st1 with refreshCalls := st1.refreshCalls + 1 }
            match st.refreshEnv udoc.whoopRefreshToken with
            | none => (.failure msg, st2)
            | some td =>
              let st3 := writeUserTokens st2 uid td.access_token td.refresh_token
              match callWhoopApi st3 td.access_token endpoint startDate with
              | (.ok recs, st4) => (.success recs, st4)
              | (.err m2, st4) => (.failure m2, st4)
          else (.failure msg, st1)
    else (.emptyDict, st)

/-- fetch_whoop_sleep_data from src/01-app/src/main.py: same lookup and
GET as fetch_whoop_data restricted to the sleep endpoint, but the refresh
is attempted on ANY unsuccessful first call (there is no check that the
failure was an authorization failure). -/
def fetch_whoop_sleep_data (st : St) (uid : String)
    (startDate : Option String) : FetchResult × St :=
  match st.users uid with
  | none => (.emptyDict, st)
  | some udoc =>
    if truthy udoc.whoopAccessToken then
      match callWhoopApi st udoc.whoopAccessToken "activity/sleep" startDate with
      | (.ok recs, st1) => (.success recs, st1)
      | (.err msg, st1) =>
        let st2 := { st1 with refreshCalls := st1.refreshCalls + 1 }
        match st.refreshEnv udoc.whoopRefreshToken with
        | none => (.failure msg, st2)
        | some td =>
          let st3 := writeUserTokens st2 uid td.access_token td.refresh_token
          match callWhoopApi st3 td.access_token "activity/sleep" startDate with
          | (.ok recs, st4) => (.success recs, st4)
          | (.err m2, st4) => (.failure m2, st4)
    else (.emptyDict, st)

/-- The records list stored for one category by update_daily_health_data:
data.get("records") if data.get("success") else [] — the empty dict and
every failure dict give the empty list. -/
def recordsIfSuccess : FetchResult → List String
  | .success recs => recs
  | _ => []

/-- update_daily_health_data from src/01-app/src/app.py: fetch the three
categories in order (sleep, recovery, workout), take each records list
only when that fetch succeeded, and set-with-merge the health_metrics
document for (uid, dateStr) with the three lists and the current
timestamp.  The source function is typed -> None; the first component of
the result renders that returned None against the outcome type of the
specification. -/
def update_daily_health_data (st : St) (uid dateStr : String) (now : Nat) :
    Option SyncOutcome × St :=
  match fetch_whoop_data st uid "sleep" (some dateStr) with
  | (sleepData, st1) =>
    match fetch_whoop_data st1 uid "recovery" (some dateStr) with
    | (recoveryData, st2) =>
      match fetch_whoop_data st2 uid "workout" (some dateStr) with
      | (workoutData, st3) =>
        let doc : MetricsDoc :=
          ⟨recordsIfSuccess sleepData, recordsIfSuccess recoveryData,
           recordsIfSuccess workoutData, now⟩
        (none, { st3 with metrics := setMetrics st3.metrics uid dateStr doc })

/-- whoop_callback from src/01-app/src/app.py: reject a missing (falsy)
code or state; look up the state document and reject a miss; reject a
missing telegram_id field; run the code exchange, rejecting any raised
error; reject a missing access token in the body; otherwise persist the
token pair for the bound user, delete the state document and report
success. -/
def whoop_callback (st : St) (code state : Option String) :
    CallbackResult × St :=
  if truthy code && truthy state then
    let s := state.getD ""
    match st.oauthStates s with
    | none => (.error "Invalid or expired state. Cannot link WHOOP account.", st)
    | some tidField =>
      if truthy tidField then
        let tid := tidField.getD ""
        match st.exchangeEnv (code.getD "") with
        | .failed => (.error "Failed to exchange token with WHOOP.", st)
        | .ok accessToken refreshToken =>
          if truthy accessToken then
            let st1 := writeUserTokens st tid accessToken refreshToken
            let st2 := { st1 with oauthStates :=
              fun s2 => if s2 = s then none else st1.oauthStates s2 }
            (.ok "WHOOP authorization successful! You can close this page.", st2)
          else (.error "No access token returned from WHOOP.", st)
      else (.error "Could not determine Telegram user from state.", st)
  else (.error "Missing code or state in the WHOOP callback.", st)

/-- Whether one raw first-call outcome makes fetch_whoop_data enter its
refresh branch: the classified result is an error whose message contains
authFailMsg. -/
def triggersRefresh (r : HttpResp) : Bool :=
  match apiResultOf r with
  | .ok _ => false
  | .err m => containsSubstr authFailMsg m

/-- The fetch result produced by one classified response when no refresh
is triggered. -/
def stepResult (r : HttpResp) : FetchResult :=
  match apiResultOf r with
  | .ok recs => .success recs
  | .err m => .failure m

/-- Concrete world for the 401-then-200 scenario: user U linked with the
pair (A1, R1); the script answers 401 then 200 with one record; the
refresh endpoint maps R1 to the pair (A2, R2). -/
def stC1w : St :=
  { users := fun u => if u = "U" then some ⟨some "A1", some "R1"⟩ else none,
    oauthStates := fun _ => none, metrics := fun _ _ => none,
    pending := [.resp 401 "Unauthorized" [], .resp 200 "OK" ["rec1"]],
    refreshEnv := fun t => if t = some "R1" then some ⟨some "A2", some "R2"⟩ else none,
    exchangeEnv := fun _ => .failed,
    apiCalls := 0, refreshCalls := 0, credWrites := 0, tokensUsed := [] }

/-- Concrete world for the state-replay scenario: state S1 is stored for
user 77 and every code exchange fails. -/
def stC2x : St :=
  { users := fun _ => none,
    oauthStates := fun s => if s = "S1" then some (some "77") else none,
    metrics := fun _ _ => none,
    pending := [], refreshEnv := fun _ => none, exchangeEnv := fun _ => .failed,
    apiCalls := 0, refreshCalls := 0, credWrites := 0, tokensUsed := [] }

/-- Concrete world for the successful-link scenario: state S1 is stored
for user 77 and the exchange of code C1 yields the pair (A1, R1). -/
def stC2w : St :=
  { users := fun _ => none,
    oauthStates := fun s => if s = "S1" then some (some "77") else none,
    metrics := fun _ _ => none,
    pending := [], refreshEnv := fun _ => none,
    exchangeEnv := fun c => if c = "C1" then .ok (some "A1") (some "R1") else .failed,
    apiCalls := 0, refreshCalls := 0, credWrites := 0, tokensUsed := [] }

/-- Concrete world for the partial-sync scenario: sleep and workout answer
200 with one record each, recovery answers 500. -/
def stC3x : St :=
  { users := fun u => if u = "U" then some ⟨some "A1", some "R1"⟩ else none,
    oauthStates := fun _ => none, metrics := fun _ _ => none,
    pending := [.resp 200 "OK" ["s1"], .resp 500 "Internal Server Error" [],
                .resp 200 "OK" ["w1"]],
    refreshEnv := fun _ => none, exchangeEnv := fun _ => .failed,
    apiCalls := 0, refreshCalls := 0, credWrites := 0, tokensUsed := [] }

/-- Concrete world for the partial-sync scenario with a transport error on
the recovery call. -/
def stC3w : St :=
  { users := fun u => if u = "U" then some ⟨some "A1", some "R1"⟩ else none,
    oauthStates := fun _ => none, metrics := fun _ _ => none,
    pending := [.resp 200 "OK" ["s2"], .exc "boom", .resp 200 "OK" ["w2"]],
    refreshEnv := fun _ => none, exchangeEnv := fun _ => .failed,
    apiCalls := 0, refreshCalls := 0, credWrites := 0, tokensUsed := [] }

/-- Concrete world with no user documents at all. -/
def stC4w : St :=
  { users := fun _ => none,
    oauthStates := fun _ => none, metrics := fun _ _ => none,
    pending := [], refreshEnv := fun _ => none, exchangeEnv := fun _ => .failed,
    apiCalls := 0, refreshCalls := 0, credWrites := 0, tokensUsed := [] }

/-- Concrete world for the non-authorization first-call failure: user U is
linked and the script answers HTTP 500. -/
def stC5x : St :=
  { users := fun u => if u = "U" then some ⟨some "A1", some "R1"⟩ else none,
    oauthStates := fun _ => none, metrics := fun _ _ => none,
    pending := [.resp 500 "Internal Server Error" []],
    refreshEnv := fun _ => none, exchangeEnv := fun _ => .failed,
    apiCalls := 0, refreshCalls := 0, credWrites := 0, tokensUsed := [] }

/-- Concrete world where the first call answers 401 and the refresh
endpoint rejects every token. -/
def stC6w : St :=
  { users := fun u => if u = "U" then some ⟨some "A1", some "R1"⟩ else none,
    oauthStates := fun _ => none, metrics := fun _ _ => none,
    pending := [.resp 401 "Unauthorized" []],
    refreshEnv := fun _ => none, exchangeEnv := fun _ => .failed,
    apiCalls := 0, refreshCalls := 0, credWrites := 0, tokensUsed := [] }

/-- Concrete world with no stored OAuth states. -/
def stC7w : St :=
  { users := fun _ => none,
    oauthStates := fun _ => none, metrics := fun _ _ => none,
    pending := [], refreshEnv := fun _ => none, exchangeEnv := fun _ => .failed,
    apiCalls := 0, refreshCalls := 0, credWrites := 0, tokensUsed := [] }

/-- Concrete world for the R1-to-(A2, R2) refresh scenario. -/
def stC8w : St :=
  { users := fun u => if u = "U" then some ⟨some "A1", some "R1"⟩ else none,
    oauthStates := fun _ => none, metrics := fun _ _ => none,
    pending := [.resp 401 "Unauthorized" [], .resp 200 "OK" ["rec1"]],
    refreshEnv := fun t => if t = some "R1" then some ⟨some "A2", some "R2"⟩ else none,
    exchangeEnv := fun _ => .failed,
    apiCalls := 0, refreshCalls := 0, credWrites := 0, tokensUsed := [] }

/-- Concrete world for two sync runs over unchanged upstream data: the
script repeats the same three successful responses twice. -/
def stC9x : St :=
  { users := fun u => if u = "U" then some ⟨some "A1", some "R1"⟩ else none,
    oauthStates := fun _ => none, metrics := fun _ _ => none,
    pending := [.resp 200 "OK" ["s1"], .resp 200 "OK" ["r1"], .resp 200 "OK" ["w1"],
                .resp 200 "OK" ["s1"], .resp 200 "OK" ["r1"], .resp 200 "OK" ["w1"]],
    refreshEnv := fun _ => none, exchangeEnv := fun _ => .failed,
    apiCalls := 0, refreshCalls := 0, credWrites := 0, tokensUsed := [] }

lemma containsSubstr_authFailMsg_self :
    containsSubstr authFailMsg authFailMsg = true := by
  decide

lemma fetch_step (st : St) (uid dataType ep : String) (startDate : Option String)
    (a : String) (rt : Option String) (r : HttpResp) (rest : List HttpResp)
    (hu : st.users uid = some ⟨some a, rt⟩) (ha : truthy (some a) = true)
    (hep : endpoints dataType = some ep) (hp : st.pending = r :: rest)
    (hnt : triggersRefresh r = false) :
    fetch_whoop_data st uid dataType startDate =
      (stepResult r, { st with pending := rest, apiCalls := st.apiCalls + 1,
                               tokensUsed := st.tokensUsed ++ [some a] }) := by
  rcases h1 : apiResultOf r with recs | msg
  · simp [fetch_whoop_data, callWhoopApi, stepResult, hu, ha, hep, hp, h1]
  · have h2 : containsSubstr authFailMsg msg = false := by
      have h := hnt
      simp [triggersRefresh, h1] at h
      exact h
    simp [fetch_whoop_data, callWhoopApi, stepResult, hu, ha, hep, hp, h1, h2]

lemma update_run (st : St) (uid d : String) (now : Nat) (a : String)
    (rt : Option String) (ra rb rc : HttpResp) (rest : List HttpResp)
    (hu : st.users uid = some ⟨some a, rt⟩) (ha : truthy (some a) = true)
    (hp : st.pending = ra :: rb :: rc :: rest)
    (h1 : triggersRefresh ra = false) (h2 : triggersRefresh rb = false)
    (h3 : triggersRefresh rc = false) :
    update_daily_health_data st uid d now =
      (none, { st with pending := rest, apiCalls := st.apiCalls + 3,
                       tokensUsed := st.tokensUsed ++ [some a, some a, some a],
                       metrics := setMetrics st.metrics uid d
                         ⟨recordsIfSuccess (stepResult ra),
                          recordsIfSuccess (stepResult rb),
                          recordsIfSuccess (stepResult rc), now⟩ }) := by
  have e1 := fetch_step st uid "sleep" "activity/sleep" (some d) a rt ra
    (rb :: rc :: rest) hu ha rfl hp h1
  have e2 := fetch_step
    { st with pending := rb :: rc :: rest, apiCalls := st.apiCalls + 1,
              tokensUsed := st.tokensUsed ++ [some a] }
    uid "recovery" "recovery" (some d) a rt rb (rc :: rest) hu ha rfl rfl h2
  have e3 := fetch_step
    { st with pending := rc :: rest, apiCalls := st.apiCalls + 1 + 1,
              tokensUsed := st.tokensUsed ++ [some a] ++ [some a] }
    uid "workout" "activity/workout" (some d) a rt rc rest hu ha rfl rfl h3
  simp only [update_daily_health_data, e1, e2, e3]
  simp [List.append_assoc]

/-- Claim C1: for a user whose stored credential has a refresh token, a
fetch whose first upstream GET answers 401 and whose retried GET answers
200 returns success, makes exactly two upstream resource calls and
persists exactly one credential update. -/
theorem fetch_401_then_200_two_calls_one_write (st : St)
    (uid dataType a r a2 r2 ep reason1 reason2 : String)
    (recs1 recs : List String) (startDate : Option String)
    (hu : st.users uid = some ⟨some a, some r⟩)
    (ha : truthy (some a) = true)
    (hep : endpoints dataType = some ep)
    (hp : st.pending = [.resp 401 reason1 recs1, .resp 200 reason2 recs])
    (hr : st.refreshEnv (some r) = some ⟨some a2, some r2⟩) :
    (fetch_whoop_data st uid dataType startDate).1 = .success recs ∧
    (fetch_whoop_data st uid dataType startDate).2.apiCalls = st.apiCalls + 2 ∧
    (fetch_whoop_data st uid dataType startDate).2.credWrites = st.credWrites + 1 := by
  simp [fetch_whoop_data, callWhoopApi, hu, ha, hep, hp, hr, apiResultOf,
    containsSubstr_authFailMsg_self, writeUserTokens]

/-- Witness for claim C1 at the concrete world stC1w. -/
theorem fetch_401_then_200_two_calls_one_write_witness :
    (fetch_whoop_data stC1w "U" "sleep" none).1 = FetchResult.success ["rec1"] ∧
    (fetch_whoop_data stC1w "U" "sleep" none).2.apiCalls = 2 ∧
    (fetch_whoop_data stC1w "U" "sleep" none).2.credWrites = 1 := by
  have h := fetch_401_then_200_two_calls_one_write stC1w "U" "sleep" "A1" "R1" "A2"
    "R2" "activity/sleep" "Unauthorized" "OK" [] ["rec1"] none (by decide) (by decide)
    rfl rfl (by decide)
  simpa using h

/-- Claim C2 is refuted: after a callback whose code exchange fails, the
state document is still stored (the code only deletes it after a
successful exchange), and a second callback with the same state does NOT
fail with the invalid-state error — the state is replayable. -/
theorem state_replay_counterexample :
    (whoop_callback stC2x (some "C1") (some "S1")).2.oauthStates "S1" =
      some (some "77") ∧
    (whoop_callback (whoop_callback stC2x (some "C1") (some "S1")).2
        (some "C1") (some "S1")).1 ≠
      CallbackResult.error "Invalid or expired state. Cannot link WHOOP account." := by
  decide

/-- Claim C2 as amended: whoop_callback deletes the state token only after
a successful code-for-token exchange; when the exchange fails the whole
state (including the stored state token) is unchanged, and on success the
state token is deleted and the credential pair is written for the bound
user. -/
theorem state_deleted_only_on_success (st : St) (c s tid : String)
    (hc : truthy (some c) = true) (hs : truthy (some s) = true)
    (hst : st.oauthStates s = some (some tid))
    (htid : truthy (some tid) = true) :
    (st.exchangeEnv c = .failed →
      whoop_callback st (some c) (some s) =
        (.error "Failed to exchange token with WHOOP.", st)) ∧
    (∀ a rt, st.exchangeEnv c = .ok (some a) rt → truthy (some a) = true →
      (whoop_callback st (some c) (some s)).2.oauthStates s = none ∧
      (whoop_callback st (some c) (some s)).2.users tid = some ⟨some a, rt⟩ ∧
      (whoop_callback st (some c) (some s)).2.credWrites = st.credWrites + 1) := by
  constructor
  · intro hex
    simp [whoop_callback, hc, hs, hst, htid, hex]
  · intro a rt hex hat
    simp [whoop_callback, hc, hs, hst, htid, hex, hat, writeUserTokens, setUser]

/-- Witness for the amended claim C2 at the concrete world stC2w
(successful exchange branch). -/
theorem state_deleted_only_on_success_witness :
    (whoop_callback stC2w (some "C1") (some "S1")).2.oauthStates "S1" = none ∧
    (whoop_callback stC2w (some "C1") (some "S1")).2.users "77" =
      some ⟨some "A1", some "R1"⟩ ∧
    (whoop_callback stC2w (some "C1") (some "S1")).2.credWrites =
      stC2w.credWrites + 1 :=
  (state_deleted_only_on_success stC2w "C1" "S1" "77" (by decide) (by decide)
    (by decide) (by decide)).2 "A1" (some "R1") (by decide) (by decide)

/-- Claim C3 is refuted in its outcome part: when the recovery fetch fails
with a 500 while sleep and workout succeed, the record IS written with the
fetched sleep and workout lists and an empty recovery list, but the
invocation returns None — no outcome carrying a PartialSync flag exists. -/
theorem sync_category_failure_no_flag_counterexample :
    (update_daily_health_data stC3x "U" "2025-01-10" 7).1 = none ∧
    (update_daily_health_data stC3x "U" "2025-01-10" 7).1 ≠
      some (SyncOutcome.flagged ["recovery"]) ∧
    (update_daily_health_data stC3x "U" "2025-01-10" 7).2.metrics "U" "2025-01-10" =
      some ⟨["s1"], [], ["w1"], 7⟩ := by
  decide

/-- Claim C3 as amended: a daily sync whose recovery fetch fails (with a
non-authorization failure) while sleep and workout succeed with non-empty
lists does not abort: it writes the record for (user, date) with the
fetched sleep and workout sequences, an empty recovery sequence and the
current timestamp — but the invocation returns None, so no PartialSync
outcome flag is reported to the caller (the failure is only logged). -/
theorem sync_category_failure_writes_record (st : St) (uid d : String)
    (now : Nat) (a : String) (rt : Option String) (reason1 reason3 m : String)
    (S W : List String) (rb : HttpResp) (rest : List HttpResp)
    (hu : st.users uid = some ⟨some a, rt⟩) (ha : truthy (some a) = true)
    (hp : st.pending =
      HttpResp.resp 200 reason1 S :: rb :: HttpResp.resp 200 reason3 W :: rest)
    (hS : S ≠ []) (hW : W ≠ [])
    (hfail : apiResultOf rb = .err m) (hnt : triggersRefresh rb = false) :
    (update_daily_health_data st uid d now).1 = none ∧
    (update_daily_health_data st uid d now).2.metrics uid d =
      some ⟨S, [], W, now⟩ := by
  have h200a : triggersRefresh (HttpResp.resp 200 reason1 S) = false := by
    simp [triggersRefresh, apiResultOf]
  have h200c : triggersRefresh (HttpResp.resp 200 reason3 W) = false := by
    simp [triggersRefresh, apiResultOf]
  have e := update_run st uid d now a rt _ rb _ rest hu ha hp h200a hnt h200c
  have hA : stepResult (HttpResp.resp 200 reason1 S) = .success S := by
    simp [stepResult, apiResultOf]
  have hB : stepResult rb = .failure m := by
    simp [stepResult, hfail]
  have hC : stepResult (HttpResp.resp 200 reason3 W) = .success W := by
    simp [stepResult, apiResultOf]
  simp [e, setMetrics, hA, hB, hC, recordsIfSuccess]

/-- Witness for the amended claim C3 at the concrete world stC3w. -/
theorem sync_category_failure_writes_record_witness :
    (update_daily_health_data stC3w "U" "2025-02-02" 9).1 = none ∧
    (update_daily_health_data stC3w "U" "2025-02-02" 9).2.metrics "U" "2025-02-02" =
      some ⟨["s2"], [], ["w2"], 9⟩ :=
  sync_category_failure_writes_record stC3w "U" "2025-02-02" 9 "A1" (some "R1")
    "OK" "OK" "boom" ["s2"] ["w2"] (.exc "boom") [] (by decide) (by decide) rfl
    (by decide) (by decide) rfl (by decide)

/-- Claim C4: a fetch for a user with no stored credential (absent user
document, or a user document without a truthy access token) issues zero
upstream calls and immediately returns the empty dict — the not-linked
outcome — leaving the whole state unchanged. -/
theorem fetch_not_linked_no_calls (st : St) (uid dataType : String)
    (startDate : Option String)
    (h : st.users uid = none ∨
      ∃ d, st.users uid = some d ∧ truthy d.whoopAccessToken = false) :
    fetch_whoop_data st uid dataType startDate = (.emptyDict, st) := by
  rcases h with h | ⟨d, hd, ht⟩
  · simp [fetch_whoop_data, h]
  · simp [fetch_whoop_data, hd, ht]

/-- Witness for claim C4 at the concrete world stC4w. -/
theorem fetch_not_linked_no_calls_witness :
    fetch_whoop_data stC4w "U1" "sleep" none = (FetchResult.emptyDict, stC4w) :=
  fetch_not_linked_no_calls stC4w "U1" "sleep" none (Or.inl rfl)

/-- Claim C5 is refuted on fetch_whoop_sleep_data (src/01-app/src/main.py):
for a linked user whose first upstream response is an HTTP 500 — which is
not an authorization failure and would not trigger the refresh branch of
fetch_whoop_data — the function nevertheless invokes the token refresh
(refreshCalls becomes 1), contradicting the claim that only a 401/403
first response triggers the refresh protocol. -/
theorem sleep_fetch_refreshes_on_server_error :
    apiResultOf (HttpResp.resp 500 "Internal Server Error" []) ≠
      ApiResult.err authFailMsg ∧
    triggersRefresh (HttpResp.resp 500 "Internal Server Error" []) = false ∧
    (fetch_whoop_sleep_data stC5x "U" none).2.refreshCalls = 1 := by
  decide

/-- Supporting characterization for claim C5 on fetch_whoop_data
(src/01-app/src/app.py): the refresh protocol is invoked exactly when the
classified first response is an error whose message contains authFailMsg,
and every 401 or 403 first response is classified to exactly that
message.  (A non-authorization failure triggers a refresh only in the
pathological case that its message happens to contain authFailMsg.) -/
theorem refresh_trigger_characterization (st : St) (uid dataType a ep : String)
    (rt : Option String) (r : HttpResp) (rest : List HttpResp)
    (startDate : Option String)
    (hu : st.users uid = some ⟨some a, rt⟩)
    (ha : truthy (some a) = true)
    (hep : endpoints dataType = some ep)
    (hp : st.pending = r :: rest) :
    (fetch_whoop_data st uid dataType startDate).2.refreshCalls =
      st.refreshCalls + (if triggersRefresh r then 1 else 0) ∧
    (∀ reason recs, triggersRefresh (HttpResp.resp 401 reason recs) = true ∧
      triggersRefresh (HttpResp.resp 403 reason recs) = true) := by
  constructor
  · rcases h1 : apiResultOf r with recs | msg
    · simp [fetch_whoop_data, callWhoopApi, hu, ha, hep, hp, h1, triggersRefresh]
    · cases h2 : containsSubstr authFailMsg msg
      · simp [fetch_whoop_data, callWhoopApi, hu, ha, hep, hp, h1, h2, triggersRefresh]
      · rcases h3 : st.refreshEnv rt with _ | td
        · simp [fetch_whoop_data, callWhoopApi, hu, ha, hep, hp, h1, h2, h3,
            triggersRefresh]
        · rcases rest with _ | ⟨r2, rest2⟩
          · simp [fetch_whoop_data, callWhoopApi, hu, ha, hep, hp, h1, h2, h3,
              triggersRefresh, writeUserTokens]
          · rcases h4 : apiResultOf r2 with recs2 | m2 <;>
              simp [fetch_whoop_data, callWhoopApi, hu, ha, hep, hp, h1, h2, h3, h4,
                triggersRefresh, writeUserTokens]
  · intro reason recs
    constructor <;> simp [triggersRefresh, apiResultOf, containsSubstr_authFailMsg_self]

/-- Witness for the characterization of the refresh trigger at the
concrete world stC5x. -/
theorem refresh_trigger_characterization_witness :
    (fetch_whoop_data stC5x "U" "sleep" none).2.refreshCalls =
      stC5x.refreshCalls +
        (if triggersRefresh (HttpResp.resp 500 "Internal Server Error" []) then 1
         else 0) ∧
    triggersRefresh (HttpResp.resp 401 "Unauthorized" []) = true ∧
    triggersRefresh (HttpResp.resp 403 "Forbidden" []) = true := by
  have h := refresh_trigger_characterization stC5x "U" "sleep" "A1"
    "activity/sleep" (some "R1") (.resp 500 "Internal Server Error" []) [] none
    (by decide) (by decide) rfl rfl
  exact ⟨h.1, (h.2 "Unauthorized" []).1, (h.2 "Forbidden" []).2⟩

/-- Claim C6: when the first upstream call answers 401 and the refresh
fails, fetch_whoop_data returns the authorization failure (the dict whose
error is authFailMsg, the code rendering of AuthExpired) and is terminal:
exactly one upstream call and one refresh attempt were made, no credential
was written, and the remaining response script is untouched. -/
theorem auth_expired_terminal (st : St) (uid dataType a r ep reason : String)
    (recs1 : List String) (rest : List HttpResp) (startDate : Option String)
    (hu : st.users uid = some ⟨some a, some r⟩)
    (ha : truthy (some a) = true)
    (hep : endpoints dataType = some ep)
    (hp : st.pending = HttpResp.resp 401 reason recs1 :: rest)
    (hr : st.refreshEnv (some r) = none) :
    fetch_whoop_data st uid dataType startDate =
      (.failure authFailMsg,
       { st with pending := rest,
                 apiCalls := st.apiCalls + 1,
                 refreshCalls := st.refreshCalls + 1,
                 tokensUsed := st.tokensUsed ++ [some a] }) := by
  simp [fetch_whoop_data, callWhoopApi, hu, ha, hep, hp, hr, apiResultOf,
    containsSubstr_authFailMsg_self]

/-- Witness for claim C6 at the concrete world stC6w. -/
theorem auth_expired_terminal_witness :
    fetch_whoop_data stC6w "U" "sleep" none =
      (.failure authFailMsg,
       { stC6w with pending := [], apiCalls := stC6w.apiCalls + 1,
                    refreshCalls := stC6w.refreshCalls + 1,
                    tokensUsed := stC6w.tokensUsed ++ [some "A1"] }) :=
  auth_expired_terminal stC6w "U" "sleep" "A1" "R1" "activity/sleep" "Unauthorized"
    [] [] none (by decide) (by decide) rfl rfl rfl

/-- Claim C7: a callback whose state value has no stored state token fails
with the invalid-state error and performs no side effects at all — the
returned state is the input state, so in particular no credential is
written for any user. -/
theorem invalid_state_no_side_effects (st : St) (c s : String)
    (hc : truthy (some c) = true) (hs : truthy (some s) = true)
    (hmiss : st.oauthStates s = none) :
    whoop_callback st (some c) (some s) =
      (.error "Invalid or expired state. Cannot link WHOOP account.", st) := by
  simp [whoop_callback, hc, hs, hmiss]

/-- Witness for claim C7 at the concrete world stC7w. -/
theorem invalid_state_no_side_effects_witness :
    whoop_callback stC7w (some "C1") (some "S1") =
      (.error "Invalid or expired state. Cannot link WHOOP account.", stC7w) :=
  invalid_state_no_side_effects stC7w "C1" "S1" (by decide) (by decide) rfl

/-- Claim C8: when the stored refresh token is R1 and the refresh endpoint
answers with the pair (A2, R2), the credential persisted for the user
afterwards is exactly that pair, and the pair is persisted before any
further use: the retried GET is issued with bearer token A2. -/
theorem refresh_persists_new_pair (st : St) (uid dataType a1 ep reason : String)
    (recs1 : List String) (rest : List HttpResp) (startDate : Option String)
    (hu : st.users uid = some ⟨some a1, some "R1"⟩)
    (ha : truthy (some a1) = true)
    (hep : endpoints dataType = some ep)
    (hp : st.pending = HttpResp.resp 401 reason recs1 :: rest)
    (hr : st.refreshEnv (some "R1") = some ⟨some "A2", some "R2"⟩) :
    (fetch_whoop_data st uid dataType startDate).2.users uid =
      some ⟨some "A2", some "R2"⟩ ∧
    (fetch_whoop_data st uid dataType startDate).2.tokensUsed =
      st.tokensUsed ++ [some a1, some "A2"] := by
  have h401 : apiResultOf (HttpResp.resp 401 reason recs1) = .err authFailMsg := by
    simp [apiResultOf]
  rcases rest with _ | ⟨r2, rest2⟩
  · simp [fetch_whoop_data, callWhoopApi, hu, ha, hep, hp, hr, h401,
      containsSubstr_authFailMsg_self, writeUserTokens, setUser]
  · rcases h2 : apiResultOf r2 with recs | m <;>
      simp [fetch_whoop_data, callWhoopApi, hu, ha, hep, hp, hr, h401, h2,
        containsSubstr_authFailMsg_self, writeUserTokens, setUser]

/-- Witness for claim C8 at the concrete world stC8w. -/
theorem refresh_persists_new_pair_witness :
    (fetch_whoop_data stC8w "U" "sleep" none).2.users "U" =
      some ⟨some "A2", some "R2"⟩ ∧
    (fetch_whoop_data stC8w "U" "sleep" none).2.tokensUsed =
      stC8w.tokensUsed ++ [some "A1", some "A2"] :=
  refresh_persists_new_pair stC8w "U" "sleep" "A1" "activity/sleep" "Unauthorized"
    [] [.resp 200 "OK" ["rec1"]] none (by decide) (by decide) rfl rfl (by decide)

/-- Claim C9 is refuted: running the sync twice over unchanged upstream
data does NOT yield a stored record equal to the record of a single run,
because the timestamp field is rewritten with the current time on every
run. -/
theorem sync_twice_timestamp_counterexample :
    (update_daily_health_data
        (update_daily_health_data stC9x "U" "2025-01-10" 0).2
        "U" "2025-01-10" 1).2.metrics "U" "2025-01-10" ≠
      (update_daily_health_data stC9x "U" "2025-01-10" 0).2.metrics "U" "2025-01-10" := by
  decide

/-- Claim C9 as amended: running the sync twice in succession with
unchanged upstream responses yields stored records equal in the three data
fields sleep_records, recovery_records and workout_records (the
merge-upsert is stable on the data); only the timestamp field differs,
holding the time of the respective run. -/
theorem sync_twice_stable_data (st : St) (uid d : String) (t1 t2 : Nat)
    (a : String) (rt : Option String) (ra rb rc : HttpResp)
    (hu : st.users uid = some ⟨some a, rt⟩) (ha : truthy (some a) = true)
    (hp : st.pending = [ra, rb, rc, ra, rb, rc])
    (h1 : triggersRefresh ra = false) (h2 : triggersRefresh rb = false)
    (h3 : triggersRefresh rc = false) :
    (update_daily_health_data st uid d t1).2.metrics uid d =
      some ⟨recordsIfSuccess (stepResult ra), recordsIfSuccess (stepResult rb),
            recordsIfSuccess (stepResult rc), t1⟩ ∧
    (update_daily_health_data
        (update_daily_health_data st uid d t1).2 uid d t2).2.metrics uid d =
      some ⟨recordsIfSuccess (stepResult ra), recordsIfSuccess (stepResult rb),
            recordsIfSuccess (stepResult rc), t2⟩ := by
  have e1 := update_run st uid d t1 a rt ra rb rc [ra, rb, rc] hu ha hp h1 h2 h3
  constructor
  · simp [e1, setMetrics]
  · rw [e1]
    have e2 := update_run
      { st with pending := [ra, rb, rc], apiCalls := st.apiCalls + 3,
                tokensUsed := st.tokensUsed ++ [some a, some a, some a],
                metrics := setMetrics st.metrics uid d
                  ⟨recordsIfSuccess (stepResult ra),
                   recordsIfSuccess (stepResult rb),
                   recordsIfSuccess (stepResult rc), t1⟩ }
      uid d t2 a rt ra rb rc [] hu ha rfl h1 h2 h3
    simp [e2, setMetrics]

/-- Witness for the amended claim C9 at the concrete world stC9x. -/
theorem sync_twice_stable_data_witness :
    (update_daily_health_data stC9x "U" "2025-01-10" 0).2.metrics "U" "2025-01-10" =
      some ⟨["s1"], ["r1"], ["w1"], 0⟩ ∧
    (update_daily_health_data
        (update_daily_health_data stC9x "U" "2025-01-10" 0).2
        "U" "2025-01-10" 1).2.metrics "U" "2025-01-10" =
      some ⟨["s1"], ["r1"], ["w1"], 1⟩ := by
  have h := sync_twice_stable_data stC9x "U" "2025-01-10" 0 1 "A1" (some "R1")
    (.resp 200 "OK" ["s1"]) (.resp 200 "OK" ["r1"]) (.resp 200 "OK" ["w1"])
    (by decide) (by decide) rfl (by decide) (by decide) (by decide)
  simpa [stepResult, apiResultOf, recordsIfSuccess] using h

end GymBro
